import Mathlib

/-!
Shallow embedding of the playback core of `src/src/components/RandomMp3PlayerMobile.tsx`
(a browser audio shuffle player with randomized silence gaps).

Modelling conventions:
- JavaScript numbers are modelled as `ℚ` (no NaN/Infinity arise on the verified paths:
  all inputs come from the clamped UI fields or from `Math.random()`).
- `Math.random()` draws are passed in explicitly as a parameter `q : ℚ` / `r : ℚ`
  with `0 ≤ q < 1`; each call site that draws takes its own fresh parameter.
- `URL.createObjectURL` mints an opaque handle; handles are modelled as `String`
  parameters supplied at the call site. `URL.revokeObjectURL` calls are logged in a
  `revoked` list so resource-release claims are observable.
- `audio.play()` either resolves or rejects (autoplay policy / interruption); the
  outcome is an explicit `playOk : Bool` parameter. Every `play()` call is logged in
  `playAttempts` so "no retry" claims are observable.
- The hidden `<audio>` element always exists while the component is mounted, so the
  `if (!audio) return` guards are not reachable and are omitted.
- React `useState` values and `useRef` cells are fields of one `PlayerState` record;
  an event handler is a state transformer.
-/

/-- `Track` from the source: `{ name: string; url: string }`. -/
structure Track where
  name : String
  url : String
deriving DecidableEq, Repr

/-- A raw input file together with the object-URL handle that would be minted for it
(`URL.createObjectURL(f)`). -/
structure RawFile where
  name : String
  url : String
deriving DecidableEq, Repr

/-- `clamp(value, min, max) = Math.min(max, Math.max(min, value))` from the source
(binders renamed `lo`/`hi` because `min`/`max` are Lean functions). -/
def clamp (value lo hi : ℚ) : ℚ :=
  min hi (max lo value)

/-- `pickRandom(items)` from the source: `undefined` on an empty list, otherwise
`items[Math.floor(Math.random() * items.length)]`; the `Math.random()` draw is the
explicit parameter `q`. -/
def pickRandom {α : Type} (items : List α) (q : ℚ) : Option α :=
  if items.length = 0 then none
  else items.get? (⌊q * (items.length : ℚ)⌋).toNat

/-- Little-endian bytes of `DataView.setUint16(·, v, true)`. -/
def u16le (v : ℕ) : List ℕ :=
  [v % 256, v / 256 % 256]

/-- Little-endian bytes of `DataView.setUint32(·, v, true)`. -/
def u32le (v : ℕ) : List ℕ :=
  [v % 256, v / 256 % 256, v / 2 ^ 16 % 256, v / 2 ^ 24 % 256]

/-- `frameCount = Math.max(0, Math.floor(seconds * sampleRate))` with
`sampleRate = 44100`, from `createWavSilence`. -/
def frameCount (seconds : ℚ) : ℕ :=
  (max 0 ⌊seconds * (44100 : ℚ)⌋).toNat

/-- `createWavSilence(seconds)` from the source, as the byte list of the produced
blob: 44-byte RIFF/WAVE header (PCM, mono, 16-bit, 44100 Hz, little-endian fields)
followed by `frameCount * blockAlign` zero sample bytes. ASCII tags are written as
their character codes (`RIFF`, `WAVE`, `fmt `, `data`). -/
def createWavSilence (seconds : ℚ) : List ℕ :=
  let sampleRate : ℕ := 44100
  let numChannels : ℕ := 1
  let bitsPerSample : ℕ := 16
  let byteRate : ℕ := sampleRate * numChannels * bitsPerSample / 8
  let blockAlign : ℕ := numChannels * bitsPerSample / 8
  let dataSize : ℕ := frameCount seconds * blockAlign
  [82, 73, 70, 70] ++ u32le (36 + dataSize) ++ [87, 65, 86, 69]
    ++ [102, 109, 116, 32] ++ u32le 16 ++ u16le 1 ++ u16le numChannels
    ++ u32le sampleRate ++ u32le byteRate ++ u16le blockAlign ++ u16le bitsPerSample
    ++ [100, 97, 116, 97] ++ u32le dataSize
    ++ List.replicate dataSize 0

/-- `makeSilenceWavUrl(seconds)` clamps the duration to `[0, 3600]` before synthesis;
we model the bytes behind the returned object URL. -/
def makeSilenceWav (seconds : ℚ) : List ℕ :=
  createWavSilence (clamp seconds 0 3600)

example : frameCount (1 / 44100) = 1 := by norm_num [frameCount]
example : (createWavSilence (1 / 44100)).length = 46 := by
  norm_num [createWavSilence, frameCount, u16le, u32le]

/-- The component's state: the `useState` values and `useRef` cells of
`RandomMp3PlayerMobile` that the playback core reads or writes, plus two
observation logs (`revoked` for `URL.revokeObjectURL` calls, `playAttempts` for
`audio.play()` calls). The phase enumeration of the spec is derived:
Idle ↔ `running = false`; PlayingTrack ↔ `running ∧ ¬currentIsSilence`;
PlayingGap ↔ `running ∧ currentIsSilence`. -/
structure PlayerState where
  tracks : List Track
  running : Bool
  minGapSec : ℚ
  maxGapSec : ℚ
  currentIsSilence : Bool
  pendingRevoke : Option String
  currentMusicUrl : Option String
  lastPlayedUrl : Option String
  currentTitle : String
  silenceRemainingMs : ℚ
  silenceDurMs : ℚ
  rafActive : Bool
  currentTime : ℚ
  duration : ℚ
  audioSrc : Option String
  revoked : List String
  playAttempts : List String
deriving DecidableEq, Repr

/-- The component's initial state (`useState` initialisers and `useRef` initial
values). -/
def initState : PlayerState :=
  { tracks := []
    running := false
    minGapSec := 3
    maxGapSec := 10
    currentIsSilence := false
    pendingRevoke := none
    currentMusicUrl := none
    lastPlayedUrl := none
    currentTitle := ""
    silenceRemainingMs := 0
    silenceDurMs := 0
    rafActive := false
    currentTime := 0
    duration := 0
    audioSrc := none
    revoked := []
    playAttempts := [] }

/-- `cleanupPendingRevoke` from the source: if a URL is pending, revoke it and
clear the slot. -/
def cleanupPendingRevoke (s : PlayerState) : PlayerState :=
  match s.pendingRevoke with
  | some url => { s with pendingRevoke := none, revoked := s.revoked ++ [url] }
  | none => s

/-- `playSrc(url, opts)` from the source: release any pending ephemeral URL,
set the element source, attempt `play()`; on rejection set `running := false`
and return early; on success record the URL for later revocation when
`opts.revokeOnEnd`, and set the title. (`volume`, `preload`, `playsinline` and
the glitch effect have no bearing on the claims and are omitted.) -/
def playSrc (s : PlayerState) (url : String) (revokeOnEnd : Bool)
    (title : Option String) (playOk : Bool) : PlayerState :=
  let s1 := cleanupPendingRevoke s
  let s2 := { s1 with audioSrc := some url, playAttempts := s1.playAttempts ++ [url] }
  if playOk then
    let s3 := if revokeOnEnd then { s2 with pendingRevoke := some url } else s2
    match title with
    | some t => { s3 with currentTitle := t }
    | none => s3
  else
    { s2 with running := false }

/-- The selection pool of `playRandomTrack`: the registered tracks, minus the
last-played URL when one is recorded and more than one track exists. -/
def selectPool (tracks : List Track) (lastUrl : Option String) : List Track :=
  match lastUrl with
  | some lu => if 1 < tracks.length then tracks.filter (fun tr => tr.url ≠ lu) else tracks
  | none => tracks

/-- `playRandomTrack` from the source: pick from the pool excluding the
last-played URL (when the pool has more than one entry), record the chosen
track's URL as current and last-played, and start playback of it. -/
def playRandomTrack (s : PlayerState) (q : ℚ) (playOk : Bool) : PlayerState :=
  if s.tracks.length = 0 then s
  else
    match pickRandom (selectPool s.tracks s.lastPlayedUrl) q with
    | none => s
    | some t =>
      let s1 := { s with currentIsSilence := false
                         currentMusicUrl := some t.url
                         lastPlayedUrl := some t.url }
      playSrc s1 t.url false (some t.name) playOk

/-- The gap duration drawn by `playSilenceThenNext`:
`clamp(lo + Math.random() * (hi - lo), 0, 3600)` with `lo = min(minGapSec, maxGapSec)`
and `hi = max(minGapSec, maxGapSec)`; the `Math.random()` draw is `r`. -/
def drawGapDur (minGapSec maxGapSec r : ℚ) : ℚ :=
  let lo := min minGapSec maxGapSec
  let hi := max minGapSec maxGapSec
  clamp (lo + r * (hi - lo)) 0 3600

/-- `playSilenceThenNext` from the source: draw a gap duration, synthesize the
silence resource (its minted object URL is the parameter `silenceUrl`), start the
countdown (`silenceDurRef`, `silenceRemainingMs`, one scheduled animation frame),
and start playback of the silence with `revokeOnEnd`. The title string
interpolation of the duration is abbreviated to the fixed prefix. -/
def playSilenceThenNext (s : PlayerState) (r : ℚ) (silenceUrl : String)
    (playOk : Bool) : PlayerState :=
  let dur := drawGapDur s.minGapSec s.maxGapSec r
  let s1 := { s with currentIsSilence := true
                     currentMusicUrl := none
                     silenceDurMs := dur * 1000
                     silenceRemainingMs := dur * 1000
                     rafActive := true }
  playSrc s1 silenceUrl true (some "Silence") playOk

/-- The `ended` listener from the source: return immediately when not running;
after a silence, zero the countdown and play a random track; after a track, play
a silence gap. -/
def onEnded (s : PlayerState) (q r : ℚ) (silenceUrl : String) (playOk : Bool) :
    PlayerState :=
  if s.running = false then s
  else if s.currentIsSilence then
    playRandomTrack { s with silenceRemainingMs := 0 } q playOk
  else
    playSilenceThenNext s r silenceUrl playOk

/-- `onStart` from the source: ignore when already running or the pool is empty;
otherwise set running and play a random track immediately (no gap). -/
def onStart (s : PlayerState) (q : ℚ) (playOk : Bool) : PlayerState :=
  if s.running || s.tracks.length = 0 then s
  else playRandomTrack { s with running := true } q playOk

/-- `onStop` from the source: stop running, pause the element, cancel the
animation-frame callback, and zero the countdown and the time/duration display.
(`audio.pause()` acts only on the media element.) -/
def onStop (s : PlayerState) : PlayerState :=
  { s with running := false
           rafActive := false
           silenceRemainingMs := 0
           currentTime := 0
           duration := 0 }

/-- `onFiles` from the source: for each input file, skip it when a track with the
same name is already in `tracks` (the state captured by the callback), otherwise
mint an object URL and collect a new track; append all collected tracks. -/
def onFiles (s : PlayerState) (files : List RawFile) : PlayerState :=
  if files.length = 0 then s
  else
    let newTracks := files.foldl
      (fun acc f =>
        if s.tracks.any (fun track => track.name = f.name) then acc
        else acc ++ [{ name := f.name, url := f.url : Track }])
      ([] : List Track)
    { s with tracks := s.tracks ++ newTracks }

/-- `clearFiles` from the source: revoke every track URL, empty the pool, clear
the last-played reference, stop running, cancel the animation-frame callback and
zero the countdown. -/
def clearFiles (s : PlayerState) : PlayerState :=
  { s with tracks := []
           revoked := s.revoked ++ s.tracks.map (fun t => t.url)
           lastPlayedUrl := none
           running := false
           rafActive := false
           silenceRemainingMs := 0 }

/-- `skipTrack` from the source: ignore when not running; during a silence jump
straight to the next random track; during a track go to a silence gap first. -/
def skipTrack (s : PlayerState) (q r : ℚ) (silenceUrl : String) (playOk : Bool) :
    PlayerState :=
  if s.running = false then s
  else if s.currentIsSilence then
    playRandomTrack s q playOk
  else
    playSilenceThenNext s r silenceUrl playOk

/-! ## Helper lemmas -/

theorem pickRandom_mem {α : Type} {items : List α} {q : ℚ} {a : α}
    (h : pickRandom items q = some a) : a ∈ items := by
  unfold pickRandom at h
  split at h
  · exact absurd h (by simp)
  · exact List.get?_mem h

theorem pickRandom_ne_nil {α : Type} {items : List α} {q : ℚ} {a : α}
    (h : pickRandom items q = some a) : items ≠ [] := by
  intro hnil
  subst hnil
  simp [pickRandom] at h

theorem pickRandom_singleton {α : Type} (a : α) {q : ℚ} (hq0 : 0 ≤ q)
    (hq1 : q < 1) : pickRandom [a] q = some a := by
  have hfl : ⌊q⌋ = 0 := Int.floor_eq_zero_iff.mpr (Set.mem_Ico.mpr ⟨hq0, hq1⟩)
  simp [pickRandom, hfl]

theorem selectPool_nil (lastUrl : Option String) : selectPool [] lastUrl = [] := by
  cases lastUrl <;> simp [selectPool]

theorem selectPool_none (tracks : List Track) : selectPool tracks none = tracks := rfl

/-- A track picked from the selection pool never carries the last-played URL when
the pool of registered tracks has more than one entry. -/
theorem selectPool_ne_last {tracks : List Track} {lu : String} {q : ℚ} {t : Track}
    (hlen : 1 < tracks.length)
    (h : pickRandom (selectPool tracks (some lu)) q = some t) : t.url ≠ lu := by
  have hmem : t ∈ selectPool tracks (some lu) := pickRandom_mem h
  have hmem2 : t ∈ tracks.filter (fun tr => decide (tr.url ≠ lu)) := by
    simpa [selectPool, hlen] using hmem
  have := List.mem_filter.mp hmem2
  simpa using this.2

theorem playSrc_tracks (s : PlayerState) (url : String) (roe : Bool)
    (title : Option String) (ok : Bool) :
    (playSrc s url roe title ok).tracks = s.tracks := by
  cases hp : s.pendingRevoke <;> cases ok <;> cases roe <;> cases title <;>
    simp [playSrc, cleanupPendingRevoke, hp]

theorem playSrc_minGapSec (s : PlayerState) (url : String) (roe : Bool)
    (title : Option String) (ok : Bool) :
    (playSrc s url roe title ok).minGapSec = s.minGapSec := by
  cases hp : s.pendingRevoke <;> cases ok <;> cases roe <;> cases title <;>
    simp [playSrc, cleanupPendingRevoke, hp]

theorem playSrc_maxGapSec (s : PlayerState) (url : String) (roe : Bool)
    (title : Option String) (ok : Bool) :
    (playSrc s url roe title ok).maxGapSec = s.maxGapSec := by
  cases hp : s.pendingRevoke <;> cases ok <;> cases roe <;> cases title <;>
    simp [playSrc, cleanupPendingRevoke, hp]

theorem playSrc_currentIsSilence (s : PlayerState) (url : String) (roe : Bool)
    (title : Option String) (ok : Bool) :
    (playSrc s url roe title ok).currentIsSilence = s.currentIsSilence := by
  cases hp : s.pendingRevoke <;> cases ok <;> cases roe <;> cases title <;>
    simp [playSrc, cleanupPendingRevoke, hp]

theorem playSrc_currentMusicUrl (s : PlayerState) (url : String) (roe : Bool)
    (title : Option String) (ok : Bool) :
    (playSrc s url roe title ok).currentMusicUrl = s.currentMusicUrl := by
  cases hp : s.pendingRevoke <;> cases ok <;> cases roe <;> cases title <;>
    simp [playSrc, cleanupPendingRevoke, hp]

theorem playSrc_lastPlayedUrl (s : PlayerState) (url : String) (roe : Bool)
    (title : Option String) (ok : Bool) :
    (playSrc s url roe title ok).lastPlayedUrl = s.lastPlayedUrl := by
  cases hp : s.pendingRevoke <;> cases ok <;> cases roe <;> cases title <;>
    simp [playSrc, cleanupPendingRevoke, hp]

theorem playSrc_silenceDurMs (s : PlayerState) (url : String) (roe : Bool)
    (title : Option String) (ok : Bool) :
    (playSrc s url roe title ok).silenceDurMs = s.silenceDurMs := by
  cases hp : s.pendingRevoke <;> cases ok <;> cases roe <;> cases title <;>
    simp [playSrc, cleanupPendingRevoke, hp]

theorem playSrc_silenceRemainingMs (s : PlayerState) (url : String) (roe : Bool)
    (title : Option String) (ok : Bool) :
    (playSrc s url roe title ok).silenceRemainingMs = s.silenceRemainingMs := by
  cases hp : s.pendingRevoke <;> cases ok <;> cases roe <;> cases title <;>
    simp [playSrc, cleanupPendingRevoke, hp]

theorem playSrc_rafActive (s : PlayerState) (url : String) (roe : Bool)
    (title : Option String) (ok : Bool) :
    (playSrc s url roe title ok).rafActive = s.rafActive := by
  cases hp : s.pendingRevoke <;> cases ok <;> cases roe <;> cases title <;>
    simp [playSrc, cleanupPendingRevoke, hp]

theorem playSrc_running_true (s : PlayerState) (url : String) (roe : Bool)
    (title : Option String) :
    (playSrc s url roe title true).running = s.running := by
  cases hp : s.pendingRevoke <;> cases roe <;> cases title <;>
    simp [playSrc, cleanupPendingRevoke, hp]

theorem playSrc_running_false (s : PlayerState) (url : String) (roe : Bool)
    (title : Option String) :
    (playSrc s url roe title false).running = false := by
  cases hp : s.pendingRevoke <;> cases roe <;> cases title <;>
    simp [playSrc, cleanupPendingRevoke, hp]

theorem playSrc_playAttempts (s : PlayerState) (url : String) (roe : Bool)
    (title : Option String) (ok : Bool) :
    (playSrc s url roe title ok).playAttempts = s.playAttempts ++ [url] := by
  cases hp : s.pendingRevoke <;> cases ok <;> cases roe <;> cases title <;>
    simp [playSrc, cleanupPendingRevoke, hp]

theorem playSrc_pendingRevoke (s : PlayerState) (url : String) (roe : Bool)
    (title : Option String) (ok : Bool) :
    (playSrc s url roe title ok).pendingRevoke =
      if ok && roe then some url else none := by
  cases hp : s.pendingRevoke <;> cases ok <;> cases roe <;> cases title <;>
    simp [playSrc, cleanupPendingRevoke, hp]

theorem playSrc_revoked (s : PlayerState) (url : String) (roe : Bool)
    (title : Option String) (ok : Bool) :
    (playSrc s url roe title ok).revoked = s.revoked ++ s.pendingRevoke.toList := by
  cases hp : s.pendingRevoke <;> cases ok <;> cases roe <;> cases title <;>
    simp [playSrc, cleanupPendingRevoke, hp]

/-- When the pick succeeds, `playRandomTrack` records the chosen track as current
and last played, leaves the silence flag off, and leaves the gap bookkeeping
untouched. -/
theorem playRandomTrack_sel (s : PlayerState) (q : ℚ) (ok : Bool) (t : Track)
    (h : pickRandom (selectPool s.tracks s.lastPlayedUrl) q = some t) :
    (playRandomTrack s q ok).currentMusicUrl = some t.url
    ∧ (playRandomTrack s q ok).lastPlayedUrl = some t.url
    ∧ (playRandomTrack s q ok).currentIsSilence = false
    ∧ (playRandomTrack s q ok).silenceDurMs = s.silenceDurMs
    ∧ (playRandomTrack s q ok).playAttempts = s.playAttempts ++ [t.url] := by
  have hne : ¬ s.tracks.length = 0 := by
    intro h0
    have hnil : s.tracks = [] := List.length_eq_zero.mp h0
    rw [hnil, selectPool_nil] at h
    simp [pickRandom] at h
  unfold playRandomTrack
  rw [if_neg hne, h]
  exact ⟨by rw [playSrc_currentMusicUrl], by rw [playSrc_lastPlayedUrl],
    by rw [playSrc_currentIsSilence], by rw [playSrc_silenceDurMs],
    by rw [playSrc_playAttempts]⟩

/-- When the platform rejects the play of the chosen track, `playRandomTrack`
ends not running, after exactly one play attempt. -/
theorem playRandomTrack_fail (s : PlayerState) (q : ℚ) (t : Track)
    (h : pickRandom (selectPool s.tracks s.lastPlayedUrl) q = some t) :
    (playRandomTrack s q false).running = false
    ∧ (playRandomTrack s q false).playAttempts = s.playAttempts ++ [t.url] := by
  have hne : ¬ s.tracks.length = 0 := by
    intro h0
    have hnil : s.tracks = [] := List.length_eq_zero.mp h0
    rw [hnil, selectPool_nil] at h
    simp [pickRandom] at h
  unfold playRandomTrack
  rw [if_neg hne, h]
  exact ⟨by rw [playSrc_running_false], by rw [playSrc_playAttempts]⟩

/-- `playSilenceThenNext` enters the gap phase: silence flag on, no current music
URL, countdown set to the freshly drawn duration, animation frame scheduled. -/
theorem playSilenceThenNext_fields (s : PlayerState) (r : ℚ) (su : String)
    (ok : Bool) :
    (playSilenceThenNext s r su ok).currentIsSilence = true
    ∧ (playSilenceThenNext s r su ok).currentMusicUrl = none
    ∧ (playSilenceThenNext s r su ok).silenceDurMs
        = drawGapDur s.minGapSec s.maxGapSec r * 1000
    ∧ (playSilenceThenNext s r su ok).silenceRemainingMs
        = drawGapDur s.minGapSec s.maxGapSec r * 1000
    ∧ (playSilenceThenNext s r su ok).rafActive = true
    ∧ (playSilenceThenNext s r su ok).playAttempts = s.playAttempts ++ [su] := by
  unfold playSilenceThenNext
  exact ⟨by rw [playSrc_currentIsSilence], by rw [playSrc_currentMusicUrl],
    by rw [playSrc_silenceDurMs], by rw [playSrc_silenceRemainingMs],
    by rw [playSrc_rafActive], by rw [playSrc_playAttempts]⟩

/-- When the platform rejects the play of the silence, the sequencer ends not
running, after exactly one play attempt. -/
theorem playSilenceThenNext_fail (s : PlayerState) (r : ℚ) (su : String) :
    (playSilenceThenNext s r su false).running = false := by
  unfold playSilenceThenNext
  rw [playSrc_running_false]

/-- The gap duration drawn with an in-range configuration and a `Math.random()`
draw `0 ≤ r < 1` lies between the effective lower and upper bounds, which lie in
`[0, 3600]`. -/
theorem clamp_eq_self {x lo hi : ℚ} (h1 : lo ≤ x) (h2 : x ≤ hi) :
    clamp x lo hi = x := by
  unfold clamp
  rw [max_eq_right h1, min_eq_right h2]

theorem drawGapDur_bounds (a b r : ℚ) (ha0 : 0 ≤ a) (ha1 : a ≤ 3600)
    (hb0 : 0 ≤ b) (hb1 : b ≤ 3600) (hr0 : 0 ≤ r) (hr1 : r < 1) :
    min a b ≤ drawGapDur a b r ∧ drawGapDur a b r ≤ max a b := by
  have hlohi : min a b ≤ max a b := min_le_max
  have hx1 : min a b ≤ min a b + r * (max a b - min a b) :=
    le_add_of_nonneg_right (mul_nonneg hr0 (by linarith))
  have hx2 : min a b + r * (max a b - min a b) ≤ max a b := by
    nlinarith [mul_nonneg (by linarith : (0 : ℚ) ≤ 1 - r)
      (by linarith : (0 : ℚ) ≤ max a b - min a b)]
  have h0 : (0 : ℚ) ≤ min a b := le_min ha0 hb0
  have h3600 : max a b ≤ 3600 := max_le ha1 hb1
  have key : drawGapDur a b r = min a b + r * (max a b - min a b) :=
    clamp_eq_self (by linarith) (by linarith)
  rw [key]
  exact ⟨hx1, hx2⟩

/-- The accumulator loop of `onFiles` collects exactly the input files whose name
passes the (fixed) duplicate check, in input order. -/
theorem foldl_collect {α β : Type} (p : α → Bool) (g : α → β) :
    ∀ (l : List α) (acc : List β),
      l.foldl (fun acc f => if p f then acc else acc ++ [g f]) acc
        = acc ++ (l.filter (fun f => !p f)).map g := by
  intro l
  induction l with
  | nil => intro acc; simp
  | cons x xs ih =>
    intro acc
    cases hx : p x <;> simp [List.foldl_cons, hx, ih, List.filter_cons]

theorem onFiles_lastPlayedUrl (s : PlayerState) (files : List RawFile) :
    (onFiles s files).lastPlayedUrl = s.lastPlayedUrl := by
  unfold onFiles
  split <;> rfl

theorem createWavSilence_length (d : ℚ) :
    (createWavSilence d).length = 44 + frameCount d * 2 := by
  simp [createWavSilence, u32le, u16le]
  omega

/-- For a nonnegative duration the `Math.max(0, ·)` in `frameCount` is inert and
the frame count is exactly `⌊d * 44100⌋`. -/
theorem frameCount_of_nonneg {d : ℚ} (hd : 0 ≤ d) :
    (frameCount d : ℤ) = ⌊d * 44100⌋ := by
  have hfl : (0 : ℤ) ≤ ⌊d * (44100 : ℚ)⌋ :=
    Int.floor_nonneg.mpr (by positivity)
  unfold frameCount
  rw [max_eq_right hfl, Int.toNat_of_nonneg hfl]

/-! ## Concrete states used in witnesses and counterexamples -/

def trackA : Track := { name := "a.mp3", url := "blob:a" }

def trackB : Track := { name := "b.mp3", url := "blob:b" }

/-- A reachable PlayingTrack-phase state: tracks a and b registered, running,
currently playing a (register a and b, then `onStart` with a draw below 1/2). -/
def stateAB : PlayerState :=
  { initState with
      tracks := [trackA, trackB]
      running := true
      currentIsSilence := false
      currentMusicUrl := some "blob:a"
      lastPlayedUrl := some "blob:a"
      currentTitle := "a.mp3"
      audioSrc := some "blob:a"
      playAttempts := ["blob:a"] }

/-- A reachable PlayingGap-phase state: from `stateAB`, track a ended and a
5-second silence is playing (draw 2/7 with the default 3..10 gap bounds), so the
silence URL is pending revocation. -/
def gapState : PlayerState :=
  { initState with
      tracks := [trackA, trackB]
      running := true
      currentIsSilence := true
      pendingRevoke := some "blob:silence1"
      lastPlayedUrl := some "blob:a"
      currentTitle := "Silence"
      silenceRemainingMs := 5000
      silenceDurMs := 5000
      rafActive := true
      audioSrc := some "blob:silence1"
      playAttempts := ["blob:a", "blob:silence1"] }

/-- A state with a single registered track. -/
def stateSingle : PlayerState :=
  { initState with tracks := [trackA] }

theorem pick_stateAB :
    pickRandom (selectPool stateAB.tracks stateAB.lastPlayedUrl) (1 / 2)
      = some trackB := by
  have h1 : selectPool stateAB.tracks stateAB.lastPlayedUrl = [trackB] := by
    simp [selectPool, stateAB, initState, trackA, trackB]
  rw [h1]
  exact pickRandom_singleton trackB (by norm_num) (by norm_num)

theorem pick_gapState :
    pickRandom (selectPool gapState.tracks gapState.lastPlayedUrl) (1 / 2)
      = some trackB := by
  have h1 : selectPool gapState.tracks gapState.lastPlayedUrl = [trackB] := by
    simp [selectPool, gapState, initState, trackA, trackB]
  rw [h1]
  exact pickRandom_singleton trackB (by norm_num) (by norm_num)

/-! ## Claims -/

set_option maxHeartbeats 2000000 in
/-- C2: for a duration `d` (in the synthesizable range `0 ≤ d ≤ 3600`),
`createWavSilence` produces exactly `44 + 2 * ⌊d * 44100⌋` bytes; the header
tags are `RIFF`/`WAVE`/`fmt `/`data`, the format chunk describes PCM
(audio format 1), 1 channel, 44100 Hz, byte rate 88200, block align 2, 16 bits
per sample, all little-endian; the data chunk is `frameCount * 2` zero bytes;
`makeSilenceWavUrl`'s clamp is inert in range so it wraps the same bytes; and
the output is a function of the duration alone (determinism). -/
theorem createWavSilence_layout (d : ℚ) (hd0 : 0 ≤ d) (hd1 : d ≤ 3600) :
    ((createWavSilence d).length : ℤ) = 44 + 2 * ⌊d * 44100⌋
    ∧ (createWavSilence d).take 4 = [82, 73, 70, 70]
    ∧ ((createWavSilence d).drop 8).take 4 = [87, 65, 86, 69]
    ∧ ((createWavSilence d).drop 12).take 4 = [102, 109, 116, 32]
    ∧ ((createWavSilence d).drop 20).take 2 = [1, 0]
    ∧ ((createWavSilence d).drop 22).take 2 = [1, 0]
    ∧ ((createWavSilence d).drop 24).take 4 = [68, 172, 0, 0]
    ∧ ((createWavSilence d).drop 28).take 4 = [136, 88, 1, 0]
    ∧ ((createWavSilence d).drop 32).take 2 = [2, 0]
    ∧ ((createWavSilence d).drop 34).take 2 = [16, 0]
    ∧ ((createWavSilence d).drop 36).take 4 = [100, 97, 116, 97]
    ∧ (createWavSilence d).drop 44 = List.replicate ((⌊d * 44100⌋).toNat * 2) 0
    ∧ makeSilenceWav d = createWavSilence d
    ∧ (∀ d2 : ℚ, d2 = d → createWavSilence d2 = createWavSilence d) := by
  have hfl : (0 : ℤ) ≤ ⌊d * (44100 : ℚ)⌋ :=
    Int.floor_nonneg.mpr (by positivity)
  have hfc : frameCount d = (⌊d * 44100⌋).toNat := by
    unfold frameCount
    rw [max_eq_right hfl]
  refine ⟨?_, rfl, rfl, rfl, rfl, rfl, rfl, rfl, rfl, rfl, rfl, ?_, ?_, ?_⟩
  · rw [createWavSilence_length]
    push_cast
    rw [frameCount_of_nonneg hd0]
    ring
  · rw [← hfc]
    rfl
  · unfold makeSilenceWav
    rw [clamp_eq_self hd0 hd1]
  · intro d2 hd2
    rw [hd2]

/-- Witness for C2 at duration 5 seconds. -/
theorem createWavSilence_layout_witness :
    ((createWavSilence 5).length : ℤ) = 44 + 2 * ⌊(5 : ℚ) * 44100⌋
    ∧ ((createWavSilence 5).drop 20).take 2 = [1, 0]
    ∧ ((createWavSilence 5).drop 24).take 4 = [68, 172, 0, 0]
    ∧ ((createWavSilence 5).drop 34).take 2 = [16, 0]
    ∧ (createWavSilence 5).drop 44
        = List.replicate ((⌊(5 : ℚ) * 44100⌋).toNat * 2) 0
    ∧ makeSilenceWav 5 = createWavSilence 5 := by
  obtain ⟨h1, h2, h3, h4, h5, h6, h7, h8, h9, h10, h11, h12, h13, h14⟩ :=
    createWavSilence_layout 5 (by norm_num) (by norm_num)
  exact ⟨h1, h5, h7, h10, h12, h13⟩

/-- C1: with more than one registered track and a recorded last-played URL, the
track selected by `playRandomTrack` (for any draw for which a pick happens)
never carries the last-played URL, and becomes the new current and last-played
track; with exactly one registered track, that track is always selected, for
every draw `0 ≤ q < 1`. -/
theorem playRandomTrack_no_immediate_repeat
    (s : PlayerState) (q : ℚ) (ok : Bool) (lu : String) (t : Track)
    (h1 : 1 < s.tracks.length) (h2 : s.lastPlayedUrl = some lu)
    (h3 : pickRandom (selectPool s.tracks s.lastPlayedUrl) q = some t) :
    t.url ≠ lu
    ∧ (playRandomTrack s q ok).currentMusicUrl = some t.url
    ∧ (playRandomTrack s q ok).lastPlayedUrl = some t.url
    ∧ (∀ (s1 : PlayerState) (q1 : ℚ) (ok1 : Bool) (t0 : Track),
        s1.tracks = [t0] → 0 ≤ q1 → q1 < 1 →
        pickRandom (selectPool s1.tracks s1.lastPlayedUrl) q1 = some t0
        ∧ (playRandomTrack s1 q1 ok1).currentMusicUrl = some t0.url) := by
  refine ⟨?_, (playRandomTrack_sel s q ok t h3).1,
    (playRandomTrack_sel s q ok t h3).2.1, ?_⟩
  · rw [h2] at h3
    exact selectPool_ne_last h1 h3
  · intro s1 q1 ok1 t0 hT hq0 hq1
    have hp : pickRandom (selectPool s1.tracks s1.lastPlayedUrl) q1 = some t0 := by
      rw [hT]
      cases hl : s1.lastPlayedUrl with
      | none => exact pickRandom_singleton t0 hq0 hq1
      | some lu2 =>
        have hone : selectPool [t0] (some lu2) = [t0] := by simp [selectPool]
        rw [hone]
        exact pickRandom_singleton t0 hq0 hq1
    exact ⟨hp, (playRandomTrack_sel s1 q1 ok1 t0 hp).1⟩

/-- Witness for C1: from `stateAB` (last played a, two tracks) the draw 1/2
selects b, not a; from `stateSingle` (one track) any in-range draw selects a. -/
theorem playRandomTrack_no_immediate_repeat_witness :
    trackB.url ≠ "blob:a"
    ∧ (playRandomTrack stateAB (1 / 2) true).currentMusicUrl = some trackB.url
    ∧ (playRandomTrack stateAB (1 / 2) true).lastPlayedUrl = some trackB.url
    ∧ pickRandom (selectPool stateSingle.tracks stateSingle.lastPlayedUrl) (1 / 2)
        = some trackA
    ∧ (playRandomTrack stateSingle (1 / 2) true).currentMusicUrl
        = some trackA.url := by
  have h := playRandomTrack_no_immediate_repeat stateAB (1 / 2) true "blob:a"
    trackB (by norm_num [stateAB, initState]) rfl pick_stateAB
  have hsingle := h.2.2.2 stateSingle (1 / 2) true trackA rfl
    (by norm_num) (by norm_num)
  exact ⟨h.1, h.2.1, h.2.2.1, hsingle.1, hsingle.2⟩

/-- C3: for every gap configuration reachable from the UI (both bounds clamped
into `[0, 3600]` by the input handlers, initial values 3 and 10) and every draw
`0 ≤ r < 1`, the duration drawn by `playSilenceThenNext` lies in
`[min(minGapSec, maxGapSec), max(minGapSec, maxGapSec)]`, which is contained in
`[0, 3600]`; the drawn duration is a function of this call's own draw `r`
(a fresh value per gap phase). -/
theorem gap_duration_in_range (s : PlayerState) (r : ℚ) (su : String) (ok : Bool)
    (hmin0 : 0 ≤ s.minGapSec) (hmin1 : s.minGapSec ≤ 3600)
    (hmax0 : 0 ≤ s.maxGapSec) (hmax1 : s.maxGapSec ≤ 3600)
    (hr0 : 0 ≤ r) (hr1 : r < 1) :
    (playSilenceThenNext s r su ok).silenceDurMs
        = drawGapDur s.minGapSec s.maxGapSec r * 1000
    ∧ min s.minGapSec s.maxGapSec ≤ drawGapDur s.minGapSec s.maxGapSec r
    ∧ drawGapDur s.minGapSec s.maxGapSec r ≤ max s.minGapSec s.maxGapSec
    ∧ 0 ≤ drawGapDur s.minGapSec s.maxGapSec r
    ∧ drawGapDur s.minGapSec s.maxGapSec r ≤ 3600 := by
  obtain ⟨hlo, hhi⟩ := drawGapDur_bounds s.minGapSec s.maxGapSec r
    hmin0 hmin1 hmax0 hmax1 hr0 hr1
  refine ⟨(playSilenceThenNext_fields s r su ok).2.2.1, hlo, hhi, ?_, ?_⟩
  · exact le_trans (le_min hmin0 hmax0) hlo
  · exact le_trans hhi (max_le hmin1 hmax1)

/-- Witness for C3 with the default configuration min=3, max=10 (as in
`initState`) and draw 1/2. -/
theorem gap_duration_in_range_witness :
    (playSilenceThenNext initState (1 / 2) "blob:s" true).silenceDurMs
        = drawGapDur initState.minGapSec initState.maxGapSec (1 / 2) * 1000
    ∧ min initState.minGapSec initState.maxGapSec
        ≤ drawGapDur initState.minGapSec initState.maxGapSec (1 / 2)
    ∧ drawGapDur initState.minGapSec initState.maxGapSec (1 / 2)
        ≤ max initState.minGapSec initState.maxGapSec
    ∧ 0 ≤ drawGapDur initState.minGapSec initState.maxGapSec (1 / 2)
    ∧ drawGapDur initState.minGapSec initState.maxGapSec (1 / 2) ≤ 3600 :=
  gap_duration_in_range initState (1 / 2) "blob:s" true
    (by norm_num [initState]) (by norm_num [initState])
    (by norm_num [initState]) (by norm_num [initState])
    (by norm_num) (by norm_num)

/-- C4 counterexample: stopping from the PlayingGap state `gapState` (reachable:
register a and b, start, let a end, enter a 5-second gap) leaves the silence URL
still pending release — `onStop` never touches `pendingRevokeRef` and revokes
nothing — contradicting "zero pending ephemeral resources". -/
theorem onStop_leaves_pendingRevoke :
    (onStop gapState).running = false
    ∧ (onStop gapState).pendingRevoke = some "blob:silence1"
    ∧ (onStop gapState).pendingRevoke ≠ none
    ∧ (onStop gapState).revoked = [] := by
  refine ⟨rfl, rfl, ?_, rfl⟩
  simp [onStop, gapState, initState]

/-- C4 amended: `onStop` from any state is unconditional and idempotent, always
yields the Idle phase (`running = false`), cancels the pending animation-frame
callback, and zeroes the remaining-time counters (silence countdown, current
time, duration); however it leaves the pending-release slot untouched and
releases no resource — the pending silence URL is released only by the next
playback start or by component teardown. -/
theorem onStop_resets_amended (s : PlayerState) :
    (onStop s).running = false
    ∧ (onStop s).rafActive = false
    ∧ (onStop s).silenceRemainingMs = 0
    ∧ (onStop s).currentTime = 0
    ∧ (onStop s).duration = 0
    ∧ (onStop s).pendingRevoke = s.pendingRevoke
    ∧ (onStop s).revoked = s.revoked
    ∧ onStop (onStop s) = onStop s :=
  ⟨rfl, rfl, rfl, rfl, rfl, rfl, rfl, rfl⟩

/-- C5: `onFiles` appends, in input order, exactly those files whose display name
is not already present among the registered tracks at the time of the call, and
silently skips the rest; registering a file named `a.mp3` and then registering
another file named `a.mp3` leaves a pool of size 1. -/
theorem onFiles_dedup_append :
    (∀ (s : PlayerState) (files : List RawFile),
      (onFiles s files).tracks
        = s.tracks
          ++ (files.filter
              (fun f => !(s.tracks.any (fun track => track.name = f.name)))).map
            (fun f => { name := f.name, url := f.url : Track }))
    ∧ (onFiles (onFiles initState [{ name := "a.mp3", url := "blob:u1" }])
        [{ name := "a.mp3", url := "blob:u2" }]).tracks.length = 1 := by
  have hmain : ∀ (s : PlayerState) (files : List RawFile),
      (onFiles s files).tracks
        = s.tracks
          ++ (files.filter
              (fun f => !(s.tracks.any (fun track => track.name = f.name)))).map
            (fun f => { name := f.name, url := f.url : Track }) := by
    intro s files
    unfold onFiles
    by_cases hf : files.length = 0
    · have hnil : files = [] := List.length_eq_zero.mp hf
      subst hnil
      simp
    · rw [if_neg hf, foldl_collect]
      simp
  refine ⟨hmain, ?_⟩
  rw [hmain, hmain]
  simp [initState]

/-- C6: while running, `skipTrack` during the track phase enters the gap phase
with a freshly drawn duration (this call's draw `r`) and no current track; while
in the gap phase it goes directly to the track phase (the picked track becomes
current) with no new gap drawn (`silenceDurMs` is untouched). -/
theorem skipTrack_phase_transitions (s : PlayerState) (q r : ℚ) (su : String)
    (ok : Bool) (t : Track) (hrun : s.running = true) :
    (s.currentIsSilence = false →
       (skipTrack s q r su ok).currentIsSilence = true
       ∧ (skipTrack s q r su ok).silenceDurMs
           = drawGapDur s.minGapSec s.maxGapSec r * 1000
       ∧ (skipTrack s q r su ok).currentMusicUrl = none)
    ∧ (s.currentIsSilence = true →
       pickRandom (selectPool s.tracks s.lastPlayedUrl) q = some t →
       (skipTrack s q r su ok).currentIsSilence = false
       ∧ (skipTrack s q r su ok).currentMusicUrl = some t.url
       ∧ (skipTrack s q r su ok).silenceDurMs = s.silenceDurMs) := by
  constructor
  · intro hsil
    have heq : skipTrack s q r su ok = playSilenceThenNext s r su ok := by
      unfold skipTrack
      rw [hrun, hsil]
      simp
    rw [heq]
    exact ⟨(playSilenceThenNext_fields s r su ok).1,
      (playSilenceThenNext_fields s r su ok).2.2.1,
      (playSilenceThenNext_fields s r su ok).2.1⟩
  · intro hsil hp
    have heq : skipTrack s q r su ok = playRandomTrack s q ok := by
      unfold skipTrack
      rw [hrun, hsil]
      simp
    rw [heq]
    exact ⟨(playRandomTrack_sel s q ok t hp).2.2.1,
      (playRandomTrack_sel s q ok t hp).1,
      (playRandomTrack_sel s q ok t hp).2.2.2.1⟩

/-- Witness for C6: skipping from the PlayingTrack state `stateAB` enters the
gap phase; skipping from the PlayingGap state `gapState` goes directly to the
track phase playing b. -/
theorem skipTrack_phase_transitions_witness :
    (skipTrack stateAB (1 / 2) (1 / 2) "blob:s" true).currentIsSilence = true
    ∧ (skipTrack stateAB (1 / 2) (1 / 2) "blob:s" true).silenceDurMs
        = drawGapDur stateAB.minGapSec stateAB.maxGapSec (1 / 2) * 1000
    ∧ (skipTrack gapState (1 / 2) (1 / 2) "blob:s" true).currentIsSilence = false
    ∧ (skipTrack gapState (1 / 2) (1 / 2) "blob:s" true).currentMusicUrl
        = some trackB.url := by
  have htrack := (skipTrack_phase_transitions stateAB (1 / 2) (1 / 2) "blob:s"
    true trackB rfl).1 rfl
  have hgap := (skipTrack_phase_transitions gapState (1 / 2) (1 / 2) "blob:s"
    true trackB rfl).2 rfl pick_gapState
  exact ⟨htrack.1, htrack.2.1, hgap.1, hgap.2.1⟩

/-- C7: every playback start (`playSrc`, for any source URL and options) first
releases the previously pending ephemeral resource — its URL is revoked in this
very call — and afterwards the single pending-release slot holds at most the new
URL (and only when the new playback succeeded with `revokeOnEnd`). -/
theorem playSrc_releases_pending_first (s : PlayerState) (url : String)
    (roe : Bool) (title : Option String) (ok : Bool) (u : String)
    (hu : s.pendingRevoke = some u) :
    (playSrc s url roe title ok).revoked = s.revoked ++ [u]
    ∧ ((playSrc s url roe title ok).pendingRevoke = none
       ∨ (playSrc s url roe title ok).pendingRevoke = some url) := by
  constructor
  · rw [playSrc_revoked, hu]
    rfl
  · rw [playSrc_pendingRevoke]
    cases ok <;> cases roe <;> simp

/-- Witness for C7: starting track b from `gapState` (where the silence URL is
pending) revokes the silence URL in the same call. -/
theorem playSrc_releases_pending_first_witness :
    (playSrc gapState "blob:b" false (some "b.mp3") true).revoked
        = ["blob:silence1"]
    ∧ ((playSrc gapState "blob:b" false (some "b.mp3") true).pendingRevoke = none
       ∨ (playSrc gapState "blob:b" false (some "b.mp3") true).pendingRevoke
           = some "blob:b") :=
  playSrc_releases_pending_first gapState "blob:b" false (some "b.mp3") true
    "blob:silence1" rfl

/-- C8: when the platform rejects a playback start (`playOk = false`), the
sequencer ends not running (Idle is surfaced to the caller as the not-running
state), exactly one play attempt was made (no automatic retry), and no new
resource is registered for release; this holds on the track path
(`playRandomTrack`) and the gap path (`playSilenceThenNext`) alike. -/
theorem play_rejection_goes_idle (s : PlayerState) (q r : ℚ) (su url : String)
    (roe : Bool) (title : Option String) (t : Track)
    (ht : pickRandom (selectPool s.tracks s.lastPlayedUrl) q = some t) :
    (playSrc s url roe title false).running = false
    ∧ (playSrc s url roe title false).playAttempts = s.playAttempts ++ [url]
    ∧ (playSrc s url roe title false).pendingRevoke = none
    ∧ (playRandomTrack s q false).running = false
    ∧ (playRandomTrack s q false).playAttempts = s.playAttempts ++ [t.url]
    ∧ (playSilenceThenNext s r su false).running = false
    ∧ (playSilenceThenNext s r su false).playAttempts = s.playAttempts ++ [su] := by
  refine ⟨playSrc_running_false s url roe title, playSrc_playAttempts s url roe title false,
    ?_, (playRandomTrack_fail s q t ht).1, (playRandomTrack_fail s q t ht).2,
    playSilenceThenNext_fail s r su, (playSilenceThenNext_fields s r su false).2.2.2.2.2⟩
  rw [playSrc_pendingRevoke]
  simp

/-- Witness for C8 at the PlayingTrack state `stateAB` with a rejected start. -/
theorem play_rejection_goes_idle_witness :
    (playSrc stateAB "blob:b" false (some "b.mp3") false).running = false
    ∧ (playSrc stateAB "blob:b" false (some "b.mp3") false).playAttempts
        = stateAB.playAttempts ++ ["blob:b"]
    ∧ (playSrc stateAB "blob:b" false (some "b.mp3") false).pendingRevoke = none
    ∧ (playRandomTrack stateAB (1 / 2) false).running = false
    ∧ (playRandomTrack stateAB (1 / 2) false).playAttempts
        = stateAB.playAttempts ++ [trackB.url]
    ∧ (playSilenceThenNext stateAB (1 / 2) "blob:s" false).running = false
    ∧ (playSilenceThenNext stateAB (1 / 2) "blob:s" false).playAttempts
        = stateAB.playAttempts ++ ["blob:s"] :=
  play_rejection_goes_idle stateAB (1 / 2) (1 / 2) "blob:s" "blob:b" false
    (some "b.mp3") trackB pick_stateAB

/-- C9: the last-played reference is cleared only by `clearFiles`; `onStop`
leaves it unchanged, so restarting after a stop still excludes the previously
played track when more than one track is registered; after `clearFiles` (and any
re-registration, which never writes the reference) the reference is `none`, so
the selection pool is the whole track list (the first selection is
unconstrained). -/
theorem lastPlayed_reset_only_by_clear (s : PlayerState) (q : ℚ) (ok : Bool)
    (lu : String) (t : Track) (files : List RawFile)
    (h1 : 1 < s.tracks.length) (h2 : s.lastPlayedUrl = some lu)
    (h3 : pickRandom (selectPool s.tracks s.lastPlayedUrl) q = some t) :
    (onStop s).lastPlayedUrl = s.lastPlayedUrl
    ∧ (clearFiles s).lastPlayedUrl = none
    ∧ t.url ≠ lu
    ∧ (onStart (onStop s) q ok).lastPlayedUrl = some t.url
    ∧ selectPool (onFiles (clearFiles s) files).tracks
        (onFiles (clearFiles s) files).lastPlayedUrl
        = (onFiles (clearFiles s) files).tracks := by
  refine ⟨rfl, rfl, ?_, ?_, ?_⟩
  · rw [h2] at h3
    exact selectPool_ne_last h1 h3
  · have hrun : (onStop s).running = false := rfl
    have hlen : ¬ (onStop s).tracks.length = 0 := by
      show ¬ s.tracks.length = 0
      omega
    have hstart : onStart (onStop s) q ok
        = playRandomTrack { onStop s with running := true } q ok := by
      unfold onStart
      simp [hrun, hlen]
    rw [hstart]
    exact (playRandomTrack_sel { onStop s with running := true } q ok t h3).2.1
  · rw [onFiles_lastPlayedUrl]
    exact selectPool_none _

/-- Witness for C9 at `stateAB`, re-registering one new file after a clear. -/
theorem lastPlayed_reset_only_by_clear_witness :
    (onStop stateAB).lastPlayedUrl = stateAB.lastPlayedUrl
    ∧ (clearFiles stateAB).lastPlayedUrl = none
    ∧ trackB.url ≠ "blob:a"
    ∧ (onStart (onStop stateAB) (1 / 2) true).lastPlayedUrl = some trackB.url
    ∧ selectPool
        (onFiles (clearFiles stateAB) [{ name := "c.mp3", url := "blob:c" }]).tracks
        (onFiles (clearFiles stateAB) [{ name := "c.mp3", url := "blob:c" }]).lastPlayedUrl
        = (onFiles (clearFiles stateAB) [{ name := "c.mp3", url := "blob:c" }]).tracks :=
  lastPlayed_reset_only_by_clear stateAB (1 / 2) true "blob:a" trackB
    [{ name := "c.mp3", url := "blob:c" }]
    (by norm_num [stateAB, initState]) rfl pick_stateAB

/-- C10: once `running` is false the `ended` listener is a no-op — the state is
returned unchanged, so no new track and no new gap starts; in particular any
late `ended` notification arriving after `onStop` leaves the stopped state
exactly as `onStop` left it. -/
theorem onEnded_noop_when_stopped (s : PlayerState) (q r : ℚ) (su : String)
    (ok : Bool) (h : s.running = false) :
    onEnded s q r su ok = s
    ∧ onEnded (onStop s) q r su ok = onStop s := by
  constructor
  · unfold onEnded
    simp [h]
  · unfold onEnded
    simp [onStop]

/-- Witness for C10 at the stopped state `onStop gapState` and at `initState`. -/
theorem onEnded_noop_when_stopped_witness :
    onEnded initState (1 / 2) (1 / 2) "blob:s" true = initState
    ∧ onEnded (onStop initState) (1 / 2) (1 / 2) "blob:s" true
        = onStop initState :=
  onEnded_noop_when_stopped initState (1 / 2) (1 / 2) "blob:s" true rfl
